import Mathlib

/-!
Verification of the adaptive rendering-capacity probe implemented in
`src/src/app/app.component.ts` (class `AppComponent`).

The embedding below translates the stateful per-frame logic of the component
into explicit state passing:
* frame-time samples (JavaScript floats, exact values measured by the clock)
  are modelled as rationals;
* the component's mutable fields become the record `AppState`;
* one invocation of the `animate` callback (minus the render submission and
  camera-control update, which do not touch the modelled fields) becomes the
  function `animateTick`, parametrised by the measured frame time of that tick;
* a three.js mesh held in `testMeshes` is modelled by the descriptor `Mesh`:
  the permanent baseline cube, or a generated test mesh identified by the
  vertex count it was generated with.  The geometric contents of a generated
  mesh (`createTestMesh`) are modelled separately over the reals, parametrised
  by the stream of `Math.random()` draws.
-/

/-- A mesh held in the component's `testMeshes` array: either the baseline
cube created by `createTestEnvironment`, or a test mesh created by
`createTestMesh(vertexCount)` (identified here by that vertex count). -/
inductive Mesh where
  | cube : Mesh
  | test : ℕ → Mesh
deriving DecidableEq

/-- The mutable fields of `AppComponent` that the probe logic reads or
writes (lines 72-81 of `app.component.ts`). -/
structure AppState where
  testMeshes : List Mesh
  currentVertexCount : ℕ
  baselineFrameTime : ℚ
  frameTimes : List ℚ
  isMeasuringBaseline : Bool
  isTestStopped : Bool
  baselineMeasurements : List ℚ
  logs : List String
  statusText : String
deriving DecidableEq

/-- `maxFrameTime = 16.67` (60 FPS budget, line 76). -/
def maxFrameTime : ℚ := 1667 / 100

/-- The component's initial field values (lines 72-81): one baseline cube is
added by `createTestEnvironment` before the first animation frame. -/
def initialState : AppState where
  testMeshes := [Mesh.cube]
  currentVertexCount := 0
  baselineFrameTime := 0
  frameTimes := []
  isMeasuringBaseline := true
  isTestStopped := false
  baselineMeasurements := []
  logs := []
  statusText := "Initializing..."

/-- Digit grouping for `Number.prototype.toLocaleString`: insert a comma
after every three characters of the reversed digit list. -/
def groupRevDigits : List Char → List Char
  | a :: b :: c :: d :: rest => a :: b :: c :: ',' :: groupRevDigits (d :: rest)
  | l => l

/-- `n.toLocaleString()` on a natural number: decimal digits with comma
grouping separators. -/
def toLocaleString (n : ℕ) : String :=
  String.mk ((groupRevDigits (toString n).toList.reverse).reverse)

/-- Pad a digit string with leading zeros up to width `d`. -/
def padZeros (s : String) (d : ℕ) : String :=
  if d ≤ s.length then s else String.mk (List.replicate (d - s.length) '0') ++ s

/-- `q.toFixed(d)`: decimal rendering of `q` rounded to `d` fractional
digits (rounding half up, as for the nonnegative values produced here). -/
def toFixed (q : ℚ) (d : ℕ) : String :=
  let scaled : ℤ := round (q * (10 : ℚ) ^ d)
  let sign : String := if scaled < 0 then "-" else ""
  let a : ℕ := scaled.natAbs
  if d = 0 then sign ++ toString a
  else sign ++ toString (a / 10 ^ d) ++ "." ++ padZeros (toString (a % 10 ^ d)) d

/-- `updateStatus` (lines 101-105): append the line to `logs` and refresh
`statusText` to the newline-join of all lines. -/
def updateStatus (s : AppState) (text : String) : AppState :=
  { s with
    logs := s.logs ++ [text],
    statusText := String.intercalate "\n" (s.logs ++ [text]) }

/-- The baseline-summary text emitted at the `MeasuringBaseline → Stepping`
transition (lines 161-166). -/
def baselineText (cvc : ℕ) (bft : ℚ) : String :=
  "=== Baseline Performance ===\n" ++
  "Testing with " ++ toLocaleString cvc ++ " vertices\n" ++
  "Baseline: " ++ toFixed bft 2 ++ "ms\n" ++
  "=== Performance Testing ==="

/-- The final-results text emitted when the test stops (lines 249-256). -/
def finalText (cvc : ℕ) (bft avg : ℚ) : String :=
  "=== Test Results ===\n" ++
  "| Vertices: " ++ toLocaleString cvc ++ " | Baseline: " ++ toFixed bft 2 ++
  "ms | Final: " ++ toFixed avg 2 ++ "ms | FPS: " ++ toFixed (1000 / avg) 1

/-- The per-step progress text (lines 264-270). -/
def progressText (cvc : ℕ) (bft avg : ℚ) : String :=
  "Vertices: " ++ toLocaleString cvc ++ " | Baseline: " ++ toFixed bft 2 ++
  "ms | Current: " ++ toFixed avg 2 ++ "ms | FPS: " ++ toFixed (1000 / avg) 1

/-- `addTestMesh` (lines 273-278): create a test mesh at the current vertex
count and push it onto `testMeshes` (the position offset is a rendering
detail with no bearing on the modelled fields). -/
def addTestMesh (s : AppState) : AppState :=
  { s with testMeshes := s.testMeshes ++ [Mesh.test s.currentVertexCount] }

/-- `cleanupMeshes` (lines 212-224): pop and dispose meshes from the back of
`testMeshes` while more than one remains, so only the baseline cube (the
first entry) survives. -/
def cleanupMeshes (meshes : List Mesh) : List Mesh :=
  if _h : meshes.length > 1 then cleanupMeshes meshes.dropLast else meshes
  termination_by meshes.length
  decreasing_by simp [List.length_dropLast]; omega

/-- The sliding-window push of the load phase (lines 238-241): append the
sample, then shift the front element out if the length exceeds 60. -/
def pushSample (w : List ℚ) (x : ℚ) : List ℚ :=
  if (w ++ [x]).length > 60 then (w ++ [x]).tail else w ++ [x]

/-- The inline rolling average (lines 243-244):
`frameTimes.reduce((a, b) => a + b, 0) / frameTimes.length`. -/
def windowAvg (w : List ℚ) : ℚ := w.sum / (w.length : ℚ)

/-- A JavaScript number as produced by the inline average: either NaN or an
actual rational value. -/
inductive JsNum where
  | nan : JsNum
  | num : ℚ → JsNum
deriving DecidableEq

/-- The inline average under JavaScript float semantics: on an empty array
`reduce` yields `0`, `length` is `0`, and `0 / 0` evaluates to `NaN` — no
exception is raised.  On a non-empty array it is the arithmetic mean. -/
def jsMean (w : List ℚ) : JsNum :=
  if w.length = 0 then JsNum.nan else JsNum.num (w.sum / (w.length : ℚ))

/-- JavaScript `>` on a possibly-NaN left operand: any comparison with NaN
is false. -/
def jsGt : JsNum → ℚ → Bool
  | JsNum.nan, _ => false
  | JsNum.num q, b => decide (q > b)

/-- `measureBaselinePerformance` (lines 148-168): push the frame time onto
`baselineMeasurements`; once 60 samples are held, set `baselineFrameTime` to
their mean, leave the baseline state, start at 1000 vertices, add the first
test mesh, and emit the baseline summary. -/
def measureBaselinePerformance (s : AppState) (frameTime : ℚ) : AppState :=
  if (s.baselineMeasurements ++ [frameTime]).length ≥ 60 then
    updateStatus
      (addTestMesh
        { s with
          baselineMeasurements := s.baselineMeasurements ++ [frameTime],
          baselineFrameTime := (s.baselineMeasurements ++ [frameTime]).sum /
            (((s.baselineMeasurements ++ [frameTime]).length : ℕ) : ℚ),
          isMeasuringBaseline := false,
          currentVertexCount := 1000 })
      (baselineText 1000 ((s.baselineMeasurements ++ [frameTime]).sum /
        (((s.baselineMeasurements ++ [frameTime]).length : ℕ) : ℚ)))
  else { s with baselineMeasurements := s.baselineMeasurements ++ [frameTime] }

/-- `measurePerformance` (lines 226-271): when stopped, only render; else
push the frame time into the sliding window, compute the rolling average,
and either stop with a final report (average over budget) or grow the
workload by 1000 vertices, replace the test mesh, and emit progress. -/
def measurePerformance (s : AppState) (frameTime : ℚ) : AppState :=
  if s.isTestStopped then s
  else if windowAvg (pushSample s.frameTimes frameTime) > maxFrameTime then
    updateStatus
      { s with
        frameTimes := pushSample s.frameTimes frameTime,
        isTestStopped := true }
      (finalText s.currentVertexCount s.baselineFrameTime
        (windowAvg (pushSample s.frameTimes frameTime)))
  else
    updateStatus
      (addTestMesh
        { s with
          frameTimes := pushSample s.frameTimes frameTime,
          currentVertexCount := s.currentVertexCount + 1000,
          testMeshes := cleanupMeshes s.testMeshes })
      (progressText (s.currentVertexCount + 1000) s.baselineFrameTime
        (windowAvg (pushSample s.frameTimes frameTime)))

/-- One invocation of the `animate` callback (lines 280-289), restricted to
the modelled fields: dispatch on `isMeasuringBaseline`. -/
def animateTick (s : AppState) (frameTime : ℚ) : AppState :=
  if s.isMeasuringBaseline then measureBaselinePerformance s frameTime
  else measurePerformance s frameTime

/-- A sequence of animation ticks with the given measured frame times. -/
def runTicks (s : AppState) (xs : List ℚ) : AppState :=
  xs.foldl animateTick s

/-- The states reachable from session start by animation ticks. -/
inductive Reachable : AppState → Prop where
  | init : Reachable initialState
  | step (s : AppState) (frameTime : ℚ) :
      Reachable s → Reachable (animateTick s frameTime)

/-- The buffers built by `createTestMesh` (lines 170-210), with JavaScript
float arithmetic modelled over the reals.  The flat `Float32Array`s of
stride 3 are modelled as lists of coordinate triples; `indices` is the
`Uint32Array` contents. -/
structure TestMeshData where
  positions : List (ℝ × ℝ × ℝ)
  normals : List (ℝ × ℝ × ℝ)
  indices : List ℕ

/-- Vertex `i` of `createTestMesh` (lines 177-184): two `Math.random()`
draws (modelled as entries `2*i` and `2*i+1` of the draw stream `rnd`) give
`theta = rnd * π * 2` and `phi = acos(2 * rnd - 1)`; the position is the
spherical point at radius 1. -/
noncomputable def vertexPosition (rnd : ℕ → ℝ) (i : ℕ) : ℝ × ℝ × ℝ :=
  let theta : ℝ := rnd (2 * i) * Real.pi * 2
  let phi : ℝ := Real.arccos (2 * rnd (2 * i + 1) - 1)
  let radius : ℝ := 1
  (radius * Real.sin phi * Real.cos theta,
   radius * Real.sin phi * Real.sin theta,
   radius * Real.cos phi)

/-- Normal `i` of `createTestMesh` (lines 186-195): the position divided by
its Euclidean length. -/
noncomputable def vertexNormal (rnd : ℕ → ℝ) (i : ℕ) : ℝ × ℝ × ℝ :=
  let p := vertexPosition rnd i
  let length : ℝ := Real.sqrt (p.1 * p.1 + p.2.1 * p.2.1 + p.2.2 * p.2.2)
  (p.1 / length, p.2.1 / length, p.2.2 / length)

/-- `createTestMesh(vertexCount)` (lines 170-210): `vertexCount` positions
and normals, and `indices[i] = i` for `i = 0 .. vertexCount - 1`. -/
noncomputable def createTestMesh (vertexCount : ℕ) (rnd : ℕ → ℝ) : TestMeshData where
  positions := (List.range vertexCount).map (vertexPosition rnd)
  normals := (List.range vertexCount).map (vertexNormal rnd)
  indices := (List.range vertexCount).map (fun i => i)

/-- The observable outcome of a successful `copyResults` call (lines
291-305): the text handed to the clipboard, the state during the 2-second
confirmation window, and the state after the timeout restores the text. -/
structure CopyOutcome where
  copied : String
  duringTimeout : AppState
  final : AppState

/-- `copyResults` success path (lines 292-299): write `statusText` to the
clipboard, append a transient confirmation suffix, and restore the original
text when the timeout fires. -/
def copyResults (s : AppState) : CopyOutcome :=
  let originalText := s.statusText
  let appended :=
    { s with statusText := s.statusText ++ "\n\nCopied to clipboard! ✓" }
  { copied := originalText
    duringTimeout := appended
    final := { appended with statusText := originalText } }

/-- `copyResults` failure path (lines 300-303): the clipboard write was
rejected and an apology is appended to the displayed text. -/
def copyResultsFailure (s : AppState) : AppState :=
  { s with
    statusText :=
      s.statusText ++ "\n\nFailed to copy. Please try manually selecting the text." }

/-- The state after `k` baseline ticks (`k < 60`), all measuring a frame
time of 0: only `baselineMeasurements` has grown. -/
def baselinePartial (k : ℕ) : AppState :=
  { initialState with baselineMeasurements := List.replicate k (0 : ℚ) }

/-- The concrete state reached after 60 baseline ticks of frame time 0. -/
def afterBaselineState : AppState := animateTick (baselinePartial 59) 0

/-- The concrete state reached by one further tick of frame time 100, whose
rolling average 100 exceeds the budget and stops the test. -/
def stoppedState : AppState := animateTick afterBaselineState 100

/-- Invariant maintained by every animation tick: while measuring the
baseline nothing but `baselineMeasurements` has been touched; afterwards the
mesh list is exactly the baseline cube plus one test mesh generated at the
current vertex count; `statusText` is the newline-join of the emitted lines
once any exist, and the start-up placeholder before that. -/
def StateInv (s : AppState) : Prop :=
  (s.isMeasuringBaseline = true →
     s.isTestStopped = false ∧ s.baselineMeasurements.length < 60 ∧
     s.baselineFrameTime = 0 ∧ s.testMeshes = [Mesh.cube] ∧ s.logs = []) ∧
  (s.isMeasuringBaseline = false →
     s.testMeshes = [Mesh.cube, Mesh.test s.currentVertexCount]) ∧
  (s.logs = [] → s.statusText = "Initializing...") ∧
  (s.logs ≠ [] → s.statusText = String.intercalate "\n" s.logs)

theorem runTicks_nil (s : AppState) : runTicks s [] = s := rfl

theorem runTicks_cons (s : AppState) (x : ℚ) (xs : List ℚ) :
    runTicks s (x :: xs) = runTicks (animateTick s x) xs := rfl

theorem runTicks_concat (s : AppState) (xs : List ℚ) (x : ℚ) :
    runTicks s (xs ++ [x]) = animateTick (runTicks s xs) x := by
  simp [runTicks, List.foldl_append]

theorem reachable_runTicks {s : AppState} (h : Reachable s) (xs : List ℚ) :
    Reachable (runTicks s xs) := by
  induction xs generalizing s with
  | nil => exact h
  | cons x xs ih => exact ih (Reachable.step s x h)

theorem animateTick_baseline {s : AppState} (h : s.isMeasuringBaseline = true)
    (x : ℚ) : animateTick s x = measureBaselinePerformance s x := by
  simp [animateTick, h]

theorem animateTick_load {s : AppState} (h : s.isMeasuringBaseline = false)
    (x : ℚ) : animateTick s x = measurePerformance s x := by
  simp [animateTick, h]

theorem measureBaseline_small {s : AppState} {x : ℚ}
    (h : s.baselineMeasurements.length + 1 < 60) :
    measureBaselinePerformance s x =
      { s with baselineMeasurements := s.baselineMeasurements ++ [x] } := by
  have hc : ¬ (s.baselineMeasurements ++ [x]).length ≥ 60 := by
    simp only [List.length_append, List.length_singleton]
    omega
  simp only [measureBaselinePerformance, if_neg hc]

theorem measureBaseline_full {s : AppState} {x : ℚ}
    (h : s.baselineMeasurements.length + 1 ≥ 60) :
    measureBaselinePerformance s x =
      updateStatus
        (addTestMesh
          { s with
            baselineMeasurements := s.baselineMeasurements ++ [x],
            baselineFrameTime := (s.baselineMeasurements ++ [x]).sum /
              (((s.baselineMeasurements ++ [x]).length : ℕ) : ℚ),
            isMeasuringBaseline := false,
            currentVertexCount := 1000 })
        (baselineText 1000 ((s.baselineMeasurements ++ [x]).sum /
          (((s.baselineMeasurements ++ [x]).length : ℕ) : ℚ))) := by
  have hc : (s.baselineMeasurements ++ [x]).length ≥ 60 := by
    simp only [List.length_append, List.length_singleton]
    omega
  simp only [measureBaselinePerformance, if_pos hc]

theorem measurePerformance_stopped {s : AppState} (h : s.isTestStopped = true)
    (x : ℚ) : measurePerformance s x = s := by
  simp [measurePerformance, h]

theorem measurePerformance_stop {s : AppState} {x : ℚ}
    (h0 : s.isTestStopped = false)
    (h : windowAvg (pushSample s.frameTimes x) > maxFrameTime) :
    measurePerformance s x =
      updateStatus
        { s with frameTimes := pushSample s.frameTimes x, isTestStopped := true }
        (finalText s.currentVertexCount s.baselineFrameTime
          (windowAvg (pushSample s.frameTimes x))) := by
  simp [measurePerformance, h0, h]

theorem measurePerformance_grow {s : AppState} {x : ℚ}
    (h0 : s.isTestStopped = false)
    (h : ¬ windowAvg (pushSample s.frameTimes x) > maxFrameTime) :
    measurePerformance s x =
      updateStatus
        (addTestMesh
          { s with
            frameTimes := pushSample s.frameTimes x,
            currentVertexCount := s.currentVertexCount + 1000,
            testMeshes := cleanupMeshes s.testMeshes })
        (progressText (s.currentVertexCount + 1000) s.baselineFrameTime
          (windowAvg (pushSample s.frameTimes x))) := by
  simp [measurePerformance, h0, h]

theorem cleanupMeshes_single (m : Mesh) : cleanupMeshes [m] = [m] := by
  rw [cleanupMeshes]
  simp

theorem cleanupMeshes_pair (m m' : Mesh) : cleanupMeshes [m, m'] = [m] := by
  rw [cleanupMeshes]
  simp [cleanupMeshes_single]

theorem reachable_inv {s : AppState} (h : Reachable s) : StateInv s := by
  induction h with
  | init => simp [StateInv, initialState]
  | step s x _hr ih =>
    obtain ⟨h1, h2, h3, h4⟩ := ih
    by_cases hm : s.isMeasuringBaseline = true
    · obtain ⟨hstop, hlen, hbft, hmesh, hlogs⟩ := h1 hm
      rw [animateTick_baseline hm]
      by_cases hfull : s.baselineMeasurements.length + 1 ≥ 60
      · rw [measureBaseline_full hfull]
        simp [StateInv, updateStatus, addTestMesh, hmesh, hlogs]
      · rw [measureBaseline_small (by omega)]
        refine ⟨fun _ => ⟨hstop, ?_, hbft, hmesh, hlogs⟩, ?_, h3, h4⟩
        · simp only [List.length_append, List.length_singleton]
          omega
        · intro hfalse
          rw [hm] at hfalse
          exact absurd hfalse (by simp)
    · have hm' : s.isMeasuringBaseline = false := by
        simpa using hm
      have hmesh := h2 hm'
      rw [animateTick_load hm']
      by_cases hstop : s.isTestStopped = true
      · rw [measurePerformance_stopped hstop]
        exact ⟨h1, h2, h3, h4⟩
      · have hstop' : s.isTestStopped = false := by
          simpa using hstop
        by_cases havg : windowAvg (pushSample s.frameTimes x) > maxFrameTime
        · rw [measurePerformance_stop hstop' havg]
          simp [StateInv, updateStatus, hm', hmesh]
        · rw [measurePerformance_grow hstop' havg]
          simp [StateInv, updateStatus, addTestMesh, hm', hmesh,
            cleanupMeshes_pair]

theorem baselinePartial_step {k : ℕ} (hk : k + 1 < 60) :
    animateTick (baselinePartial k) 0 = baselinePartial (k + 1) := by
  rw [animateTick_baseline rfl]
  rw [measureBaseline_small (by simp [baselinePartial, initialState]; omega)]
  simp [baselinePartial, initialState, List.replicate_succ']

theorem runTicks_baselinePartial {k : ℕ} (hk : k < 60) :
    runTicks initialState (List.replicate k (0 : ℚ)) = baselinePartial k := by
  induction k with
  | zero => rfl
  | succ k ih =>
    rw [List.replicate_succ', runTicks_concat, ih (by omega),
      baselinePartial_step hk]

theorem afterBaseline_runTicks :
    runTicks initialState (List.replicate 60 (0 : ℚ)) = afterBaselineState := by
  have h60 : (60 : ℕ) = 59 + 1 := rfl
  rw [h60, List.replicate_succ', runTicks_concat,
    runTicks_baselinePartial (by omega)]
  rfl

theorem reachable_afterBaseline : Reachable afterBaselineState := by
  rw [← afterBaseline_runTicks]
  exact reachable_runTicks Reachable.init _

theorem afterBaseline_fields :
    afterBaselineState.isMeasuringBaseline = false ∧
    afterBaselineState.isTestStopped = false ∧
    afterBaselineState.frameTimes = [] ∧
    afterBaselineState.currentVertexCount = 1000 ∧
    afterBaselineState.baselineFrameTime = 0 ∧
    afterBaselineState.testMeshes = [Mesh.cube, Mesh.test 1000] ∧
    afterBaselineState.logs = [baselineText 1000 0] := by
  have h : (baselinePartial 59).baselineMeasurements.length + 1 ≥ 60 := by
    simp [baselinePartial, initialState]
  unfold afterBaselineState
  rw [animateTick_baseline rfl, measureBaseline_full h]
  simp [updateStatus, addTestMesh, baselinePartial, initialState]

theorem reachable_stopped : Reachable stoppedState :=
  Reachable.step afterBaselineState 100 reachable_afterBaseline

theorem stopped_avg :
    windowAvg (pushSample afterBaselineState.frameTimes 100) > maxFrameTime := by
  rw [afterBaseline_fields.2.2.1]
  simp only [pushSample, windowAvg]
  norm_num [maxFrameTime]

theorem stopped_fields :
    stoppedState.isTestStopped = true ∧
    stoppedState.isMeasuringBaseline = false ∧
    stoppedState.currentVertexCount = 1000 := by
  unfold stoppedState
  rw [animateTick_load afterBaseline_fields.1,
    measurePerformance_stop afterBaseline_fields.2.1 stopped_avg]
  simp [updateStatus, afterBaseline_fields.1, afterBaseline_fields.2.2.2.1]

theorem stopped_tick {s : AppState} (hm : s.isMeasuringBaseline = false)
    (hs : s.isTestStopped = true) (x : ℚ) : animateTick s x = s := by
  rw [animateTick_load hm, measurePerformance_stopped hs]

theorem stopped_runTicks {s : AppState} (hm : s.isMeasuringBaseline = false)
    (hs : s.isTestStopped = true) (xs : List ℚ) : runTicks s xs = s := by
  induction xs with
  | nil => rfl
  | cons x xs ih => rw [runTicks_cons, stopped_tick hm hs]; exact ih

theorem pushSample_drop {w : List ℚ} (x : ℚ) (h : w.length ≤ 60) :
    pushSample w x = (w ++ [x]).drop (w.length + 1 - 60) := by
  unfold pushSample
  by_cases hl : (w ++ [x]).length > 60
  · rw [if_pos hl]
    have h60 : w.length = 60 := by
      simp only [List.length_append, List.length_singleton] at hl
      omega
    have h1 : w.length + 1 - 60 = 1 := by omega
    rw [h1, List.drop_one]
  · rw [if_neg hl]
    have h0 : w.length + 1 - 60 = 0 := by
      simp only [List.length_append, List.length_singleton] at hl
      omega
    rw [h0, List.drop_zero]

theorem pushSample_length {w : List ℚ} (x : ℚ) (h : w.length ≤ 60) :
    (pushSample w x).length = min (w.length + 1) 60 := by
  rw [pushSample_drop x h]
  simp only [List.length_drop, List.length_append, List.length_singleton]
  omega

theorem foldl_pushSample (xs : List ℚ) :
    ∀ w : List ℚ, w.length ≤ 60 →
      xs.foldl pushSample w = (w ++ xs).drop (w.length + xs.length - 60) := by
  induction xs with
  | nil =>
    intro w h
    have h0 : w.length - 60 = 0 := by omega
    simp [h0]
  | cons x xs ih =>
    intro w h
    have hlen : (pushSample w x).length ≤ 60 := by
      rw [pushSample_length x h]; omega
    rw [List.foldl_cons, ih (pushSample w x) hlen, pushSample_length x h,
      pushSample_drop x h]
    have hle : w.length + 1 - 60 ≤ (w ++ [x]).length := by
      simp only [List.length_append, List.length_singleton]
      omega
    rw [← List.drop_append_of_le_length hle, List.drop_drop]
    have hassoc : w ++ [x] ++ xs = w ++ x :: xs := by
      rw [List.append_assoc, List.singleton_append]
    rw [hassoc]
    congr 1
    simp only [List.length_cons]
    omega

theorem jsMean_nonempty {w : List ℚ} (h : w.length ≠ 0) :
    jsMean w = JsNum.num (windowAvg w) := by
  simp [jsMean, h, windowAvg]

theorem measurePerformance_bft (s : AppState) (x : ℚ) :
    (measurePerformance s x).baselineFrameTime = s.baselineFrameTime ∧
    (measurePerformance s x).isMeasuringBaseline = s.isMeasuringBaseline := by
  by_cases hs : s.isTestStopped = true
  · rw [measurePerformance_stopped hs x]
    exact ⟨rfl, rfl⟩
  · have hs' : s.isTestStopped = false := by simpa using hs
    by_cases havg : windowAvg (pushSample s.frameTimes x) > maxFrameTime
    · rw [measurePerformance_stop hs' havg]
      simp [updateStatus]
    · rw [measurePerformance_grow hs' havg]
      simp [updateStatus, addTestMesh]

theorem vertexPosition_sq (rnd : ℕ → ℝ) (i : ℕ) :
    (vertexPosition rnd i).1 * (vertexPosition rnd i).1 +
      (vertexPosition rnd i).2.1 * (vertexPosition rnd i).2.1 +
      (vertexPosition rnd i).2.2 * (vertexPosition rnd i).2.2 = 1 := by
  simp only [vertexPosition]
  have h1 := Real.sin_sq_add_cos_sq (rnd (2 * i) * Real.pi * 2)
  have h2 := Real.sin_sq_add_cos_sq (Real.arccos (2 * rnd (2 * i + 1) - 1))
  linear_combination
    Real.sin (Real.arccos (2 * rnd (2 * i + 1) - 1)) ^ 2 * h1 + h2

theorem vertexNormal_eq (rnd : ℕ → ℝ) (i : ℕ) :
    vertexNormal rnd i = vertexPosition rnd i := by
  simp only [vertexNormal]
  rw [vertexPosition_sq rnd i, Real.sqrt_one, div_one, div_one, div_one]

/-- C2: after any sequence of `k` pushes into the load-phase sliding window
(capacity 60), the window holds exactly `min k 60` samples, those samples
are precisely the last `min k 60` values pushed in order, and the computed
average is their arithmetic mean. -/
theorem sliding_window_spec (xs : List ℚ) :
    (xs.foldl pushSample []).length = min xs.length 60 ∧
    xs.foldl pushSample [] = xs.drop (xs.length - 60) ∧
    windowAvg (xs.foldl pushSample []) =
      (xs.drop (xs.length - 60)).sum / ((min xs.length 60 : ℕ) : ℚ) := by
  have h := foldl_pushSample xs [] (by simp)
  simp only [List.nil_append, List.length_nil, Nat.zero_add] at h
  refine ⟨?_, h, ?_⟩
  · rw [h, List.length_drop]
    omega
  · rw [h, windowAvg, List.length_drop]
    have hm : xs.length - (xs.length - 60) = min xs.length 60 := by omega
    rw [hm]

/-- C2 witness: three pushes leave a window of exactly those three samples,
whose computed average is their arithmetic mean. -/
theorem sliding_window_spec_witness :
    ([3, 5, 10] : List ℚ).foldl pushSample [] =
      ([3, 5, 10] : List ℚ).drop (([3, 5, 10] : List ℚ).length - 60) :=
  (sliding_window_spec [3, 5, 10]).2.1

/-- C7 counterexample: applied to the empty window, the inline mean
evaluates `0 / 0` to the JavaScript value NaN — it completes and returns a
value instead of failing with an InsufficientData error (no such error
exists in the code) — and the subsequent budget comparison on NaN is false,
so the controller would take the growth branch rather than abort. -/
theorem mean_empty_returns_nan :
    jsMean [] = JsNum.nan ∧ jsGt (jsMean []) maxFrameTime = false :=
  ⟨rfl, rfl⟩

/-- C7 (amended): the sliding-window mean operation, applied to an empty
window, returns NaN (JavaScript `0 / 0`) rather than failing with an
InsufficientData error; applied to a non-empty window it returns the
arithmetic mean of the held samples. -/
theorem mean_empty_spec (w : List ℚ) :
    (w = [] → jsMean w = JsNum.nan) ∧
    (w ≠ [] → jsMean w = JsNum.num (windowAvg w)) := by
  constructor
  · rintro rfl
    rfl
  · intro hw
    exact jsMean_nonempty (by simpa using hw)

/-- C7 witness: a singleton window has a defined, non-NaN mean. -/
theorem mean_empty_spec_witness :
    ([5] : List ℚ) ≠ [] ∧ jsMean [5] = JsNum.num (windowAvg [5]) :=
  ⟨by simp, (mean_empty_spec [5]).2 (by simp)⟩

/-- C10: on every non-stopped load-phase tick the current sample is pushed
into the window before the average is taken, so the window the controller
averages over is `pushSample s.frameTimes x`: its length is positive, the
divisor of the average is nonzero, and the NaN (empty-window) case of the
inline mean is unreachable in the controller's own use. -/
theorem stepping_window_nonempty (s : AppState) (x : ℚ)
    (hs : s.isTestStopped = false) :
    (measurePerformance s x).frameTimes = pushSample s.frameTimes x ∧
    0 < (pushSample s.frameTimes x).length ∧
    ((pushSample s.frameTimes x).length : ℚ) ≠ 0 ∧
    jsMean (pushSample s.frameTimes x) =
      JsNum.num (windowAvg (pushSample s.frameTimes x)) := by
  have hpos : 0 < (pushSample s.frameTimes x).length := by
    unfold pushSample
    by_cases hl : (s.frameTimes ++ [x]).length > 60
    · rw [if_pos hl]
      simp only [List.length_tail, List.length_append, List.length_singleton]
      simp only [List.length_append, List.length_singleton] at hl
      omega
    · rw [if_neg hl]
      simp
  refine ⟨?_, hpos, ?_, jsMean_nonempty (by omega)⟩
  · by_cases havg : windowAvg (pushSample s.frameTimes x) > maxFrameTime
    · rw [measurePerformance_stop hs havg]
      simp [updateStatus]
    · rw [measurePerformance_grow hs havg]
      simp [updateStatus, addTestMesh]
  · exact_mod_cast Nat.pos_iff_ne_zero.mp hpos

/-- C10 witness: from the concrete post-baseline state (empty window,
not stopped), the tick's window is the pushed singleton, which is
non-empty. -/
theorem stepping_window_nonempty_witness :
    afterBaselineState.isTestStopped = false ∧
    0 < (pushSample afterBaselineState.frameTimes 0).length :=
  ⟨afterBaseline_fields.2.1,
    (stepping_window_nonempty afterBaselineState 0 afterBaseline_fields.2.1).2.1⟩

/-- C1: on a `Stepping` tick (baseline done, not stopped), if the rolling
average after pushing the current sample is within the 16.67 ms budget the
tick grows `vertexCount` by exactly 1000, replaces the active test workload
by one generated at the new count, and appends a progress report; the first
tick whose average exceeds the budget stops the test with `vertexCount`
frozen at its current value and appends the final report, and every later
tick leaves the controller stopped at that same count. -/
theorem stepping_tick_spec (s : AppState) (h : Reachable s)
    (hm : s.isMeasuringBaseline = false) (hs : s.isTestStopped = false)
    (x : ℚ) :
    (windowAvg (pushSample s.frameTimes x) ≤ maxFrameTime →
        (animateTick s x).currentVertexCount = s.currentVertexCount + 1000 ∧
        (animateTick s x).testMeshes =
          [Mesh.cube, Mesh.test (s.currentVertexCount + 1000)] ∧
        (animateTick s x).logs = s.logs ++
          [progressText (s.currentVertexCount + 1000) s.baselineFrameTime
            (windowAvg (pushSample s.frameTimes x))] ∧
        (animateTick s x).isTestStopped = false) ∧
    (windowAvg (pushSample s.frameTimes x) > maxFrameTime →
        (animateTick s x).isTestStopped = true ∧
        (animateTick s x).currentVertexCount = s.currentVertexCount ∧
        (animateTick s x).logs = s.logs ++
          [finalText s.currentVertexCount s.baselineFrameTime
            (windowAvg (pushSample s.frameTimes x))] ∧
        (∀ ys : List ℚ,
          (runTicks (animateTick s x) ys).isTestStopped = true ∧
          (runTicks (animateTick s x) ys).currentVertexCount =
            s.currentVertexCount)) := by
  have hmesh := (reachable_inv h).2.1 hm
  rw [animateTick_load hm]
  constructor
  · intro hle
    have havg : ¬ windowAvg (pushSample s.frameTimes x) > maxFrameTime := by
      exact not_lt.mpr hle
    rw [measurePerformance_grow hs havg]
    simp [updateStatus, addTestMesh, hmesh, cleanupMeshes_pair, hs]
  · intro hgt
    rw [measurePerformance_stop hs hgt]
    refine ⟨by simp [updateStatus], by simp [updateStatus],
      by simp [updateStatus], ?_⟩
    intro ys
    rw [stopped_runTicks (by simp [updateStatus, hm])
      (by simp [updateStatus]) ys]
    exact ⟨by simp [updateStatus], by simp [updateStatus]⟩

/-- C1 witness: from the concrete post-baseline state a tick with frame time
0 has rolling average 0 (within budget), so the vertex count grows from
1000 to 2000 and the test keeps running. -/
theorem stepping_tick_spec_witness :
    (animateTick afterBaselineState 0).currentVertexCount = 2000 ∧
    (animateTick afterBaselineState 0).isTestStopped = false := by
  have hle :
      windowAvg (pushSample afterBaselineState.frameTimes 0) ≤ maxFrameTime := by
    rw [afterBaseline_fields.2.2.1]
    simp only [pushSample, windowAvg]
    norm_num [maxFrameTime]
  have hc := (stepping_tick_spec afterBaselineState reachable_afterBaseline
    afterBaseline_fields.1 afterBaseline_fields.2.1 0).1 hle
  refine ⟨?_, hc.2.2.2⟩
  rw [hc.1, afterBaseline_fields.2.2.2.1]

/-- C3: while fewer than 60 baseline samples have been collected a baseline
tick only records its sample and stays in the baseline state; the tick that
delivers the 60th sample sets `baselineFrameTime` to the arithmetic mean of
the 60 samples (60 identical samples of value `v` give exactly `v`), sets
`vertexCount` to 1000, generates the first test workload, leaves the
baseline state, and emits the baseline-summary report. -/
theorem baseline_tick_spec (s : AppState) (_h : Reachable s)
    (hm : s.isMeasuringBaseline = true) (x : ℚ) :
    (s.baselineMeasurements.length + 1 < 60 →
        (animateTick s x).isMeasuringBaseline = true ∧
        (animateTick s x).baselineMeasurements =
          s.baselineMeasurements ++ [x] ∧
        (animateTick s x).logs = s.logs ∧
        (animateTick s x).currentVertexCount = s.currentVertexCount) ∧
    (s.baselineMeasurements.length + 1 = 60 →
        (animateTick s x).baselineFrameTime =
          (s.baselineMeasurements ++ [x]).sum /
            (((s.baselineMeasurements ++ [x]).length : ℕ) : ℚ) ∧
        (∀ v : ℚ, (∀ y ∈ s.baselineMeasurements ++ [x], y = v) →
            (animateTick s x).baselineFrameTime = v) ∧
        (animateTick s x).isMeasuringBaseline = false ∧
        (animateTick s x).currentVertexCount = 1000 ∧
        (animateTick s x).testMeshes = s.testMeshes ++ [Mesh.test 1000] ∧
        (animateTick s x).logs = s.logs ++
          [baselineText 1000 ((s.baselineMeasurements ++ [x]).sum /
            (((s.baselineMeasurements ++ [x]).length : ℕ) : ℚ))]) := by
  rw [animateTick_baseline hm]
  constructor
  · intro hlt
    rw [measureBaseline_small hlt]
    exact ⟨hm, rfl, rfl, rfl⟩
  · intro h60
    rw [measureBaseline_full (by omega)]
    have hlen : (s.baselineMeasurements ++ [x]).length = 60 := by
      simp only [List.length_append, List.length_singleton]
      omega
    refine ⟨by simp [updateStatus, addTestMesh], ?_,
      by simp [updateStatus, addTestMesh],
      by simp [updateStatus, addTestMesh],
      by simp [updateStatus, addTestMesh],
      by simp [updateStatus, addTestMesh]⟩
    intro v hv
    have hrep : s.baselineMeasurements ++ [x] = List.replicate 60 v :=
      List.eq_replicate_iff.mpr ⟨hlen, hv⟩
    simp only [updateStatus, addTestMesh]
    rw [hrep]
    simp only [List.sum_replicate, List.length_replicate, nsmul_eq_mul]
    push_cast
    field_simp

/-- C3 witness: from the initial state (0 samples held) a baseline tick
records its sample and remains in the baseline state. -/
theorem baseline_tick_spec_witness :
    initialState.isMeasuringBaseline = true ∧
    (animateTick initialState 5).isMeasuringBaseline = true ∧
    (animateTick initialState 5).baselineMeasurements = [(5 : ℚ)] := by
  have hc := (baseline_tick_spec initialState Reachable.init rfl 5).1
    (by norm_num [initialState])
  exact ⟨rfl, hc.1, by rw [hc.2.1]; rfl⟩

/-- C4: once the controller is stopped, any number of further ticks leaves
the whole state unchanged — in particular `vertexCount`,
`baselineFrameTime`, the sliding-window contents, and the number of emitted
report lines (each tick performs only a render submission). -/
theorem stopped_ticks_noop (s : AppState) (h : Reachable s)
    (hs : s.isTestStopped = true) (xs : List ℚ) :
    runTicks s xs = s ∧
    (runTicks s xs).currentVertexCount = s.currentVertexCount ∧
    (runTicks s xs).baselineFrameTime = s.baselineFrameTime ∧
    (runTicks s xs).frameTimes = s.frameTimes ∧
    (runTicks s xs).logs.length = s.logs.length := by
  have hm : s.isMeasuringBaseline = false := by
    by_cases hm' : s.isMeasuringBaseline = true
    · have hfalse := ((reachable_inv h).1 hm').1
      rw [hs] at hfalse
      exact absurd hfalse (by simp)
    · simpa using hm'
  have heq := stopped_runTicks hm hs xs
  exact ⟨heq, by rw [heq], by rw [heq], by rw [heq], by rw [heq]⟩

/-- C4 witness: the concrete stopped state is untouched by three further
ticks. -/
theorem stopped_ticks_noop_witness :
    stoppedState.isTestStopped = true ∧
    runTicks stoppedState [1, 2, 3] = stoppedState :=
  ⟨stopped_fields.1,
    (stopped_ticks_noop stoppedState reachable_stopped stopped_fields.1
      [1, 2, 3]).1⟩

/-- C5: `baselineFrameTime` holds its initial value 0 throughout the
baseline phase, can change only on the tick that leaves the baseline state
(where it is assigned the mean of the 60 baseline samples), and is
preserved by every tick taken outside the baseline state — so it is written
exactly once per session, at the `MeasuringBaseline → Stepping`
transition. -/
theorem baselineFrameTime_write_once (s : AppState) (h : Reachable s)
    (x : ℚ) :
    (s.isMeasuringBaseline = true → s.baselineFrameTime = 0) ∧
    ((animateTick s x).baselineFrameTime ≠ s.baselineFrameTime →
        s.isMeasuringBaseline = true ∧
        (animateTick s x).isMeasuringBaseline = false) ∧
    (s.isMeasuringBaseline = false →
        (animateTick s x).baselineFrameTime = s.baselineFrameTime ∧
        (animateTick s x).isMeasuringBaseline = false) ∧
    (s.isMeasuringBaseline = true →
        (animateTick s x).isMeasuringBaseline = false →
        (animateTick s x).baselineFrameTime =
          (s.baselineMeasurements ++ [x]).sum /
            (((s.baselineMeasurements ++ [x]).length : ℕ) : ℚ)) := by
  refine ⟨fun hm => ((reachable_inv h).1 hm).2.2.1, ?_, ?_, ?_⟩
  · intro hne
    by_cases hm : s.isMeasuringBaseline = true
    · refine ⟨hm, ?_⟩
      rw [animateTick_baseline hm] at hne ⊢
      by_cases hfull : s.baselineMeasurements.length + 1 ≥ 60
      · rw [measureBaseline_full hfull]
        simp [updateStatus, addTestMesh]
      · rw [measureBaseline_small (by omega)] at hne
        exact absurd rfl hne
    · have hm' : s.isMeasuringBaseline = false := by simpa using hm
      rw [animateTick_load hm'] at hne
      exact absurd (measurePerformance_bft s x).1 hne
  · intro hm'
    rw [animateTick_load hm']
    exact ⟨(measurePerformance_bft s x).1,
      by rw [(measurePerformance_bft s x).2, hm']⟩
  · intro hm hafter
    rw [animateTick_baseline hm] at hafter ⊢
    by_cases hfull : s.baselineMeasurements.length + 1 ≥ 60
    · rw [measureBaseline_full hfull]
      simp [updateStatus, addTestMesh]
    · rw [measureBaseline_small (by omega)] at hafter
      rw [hm] at hafter
      exact absurd hafter (by simp)

/-- C5 witness: in the reachable initial (baseline) state,
`baselineFrameTime` still holds its unwritten value 0. -/
theorem baselineFrameTime_write_once_witness :
    initialState.baselineFrameTime = 0 :=
  (baselineFrameTime_write_once initialState Reachable.init 7).1 rfl

/-- C6: in every reachable state the controller holds at most one active
test workload besides the permanent baseline cube, whose list entry is
always first and never removed; and a growth tick first reduces the mesh
list to the baseline cube alone (releasing the old test workload) and then
holds exactly the newly generated mesh at the new vertex count. -/
theorem workload_ownership (s : AppState) (h : Reachable s) :
    s.testMeshes.length ≤ 2 ∧
    s.testMeshes.head? = some Mesh.cube ∧
    (s.testMeshes = [Mesh.cube] ∨
      ∃ k, s.testMeshes = [Mesh.cube, Mesh.test k]) ∧
    (∀ x : ℚ, s.isMeasuringBaseline = false → s.isTestStopped = false →
        windowAvg (pushSample s.frameTimes x) ≤ maxFrameTime →
        cleanupMeshes s.testMeshes = [Mesh.cube] ∧
        (animateTick s x).testMeshes =
          cleanupMeshes s.testMeshes ++
            [Mesh.test (s.currentVertexCount + 1000)]) := by
  have inv := reachable_inv h
  have hcases : s.testMeshes = [Mesh.cube] ∨
      ∃ k, s.testMeshes = [Mesh.cube, Mesh.test k] := by
    by_cases hm : s.isMeasuringBaseline = true
    · exact Or.inl ((inv.1 hm).2.2.2.1)
    · exact Or.inr ⟨s.currentVertexCount, inv.2.1 (by simpa using hm)⟩
  refine ⟨?_, ?_, hcases, ?_⟩
  · rcases hcases with hc | ⟨k, hc⟩ <;> simp [hc]
  · rcases hcases with hc | ⟨k, hc⟩ <;> simp [hc]
  · intro x hm hs hle
    have hmesh := inv.2.1 hm
    have havg : ¬ windowAvg (pushSample s.frameTimes x) > maxFrameTime :=
      not_lt.mpr hle
    rw [animateTick_load hm, measurePerformance_grow hs havg]
    rw [hmesh, cleanupMeshes_pair]
    simp [updateStatus, addTestMesh]

/-- C6 witness: in the concrete post-baseline state the mesh list is the
baseline cube plus exactly one test workload. -/
theorem workload_ownership_witness :
    afterBaselineState.testMeshes.length ≤ 2 ∧
    afterBaselineState.testMeshes.head? = some Mesh.cube :=
  ⟨(workload_ownership afterBaselineState reachable_afterBaseline).1,
    (workload_ownership afterBaselineState reachable_afterBaseline).2.1⟩

/-- C8: for every positive vertex count and every stream of random draws,
the generated workload holds exactly `n` position entries, each at
Euclidean distance 1 from the origin; its normal list coincides with its
position list (the unit radial direction), so every normal has unit
length; and its index entries are `0 .. n-1` in order. -/
theorem createTestMesh_structure (n : ℕ) (rnd : ℕ → ℝ) (_h : 0 < n) :
    (createTestMesh n rnd).positions.length = n ∧
    (createTestMesh n rnd).normals.length = n ∧
    (createTestMesh n rnd).indices = List.range n ∧
    (∀ p ∈ (createTestMesh n rnd).positions,
        Real.sqrt (p.1 * p.1 + p.2.1 * p.2.1 + p.2.2 * p.2.2) = 1) ∧
    (createTestMesh n rnd).normals = (createTestMesh n rnd).positions ∧
    (∀ q ∈ (createTestMesh n rnd).normals,
        Real.sqrt (q.1 * q.1 + q.2.1 * q.2.1 + q.2.2 * q.2.2) = 1) := by
  have hpos : ∀ p ∈ (createTestMesh n rnd).positions,
      Real.sqrt (p.1 * p.1 + p.2.1 * p.2.1 + p.2.2 * p.2.2) = 1 := by
    intro p hp
    simp only [createTestMesh, List.mem_map] at hp
    obtain ⟨i, _, rfl⟩ := hp
    rw [vertexPosition_sq rnd i, Real.sqrt_one]
  have hnorm : (createTestMesh n rnd).normals =
      (createTestMesh n rnd).positions := by
    simp only [createTestMesh]
    exact List.map_congr_left fun i _ => vertexNormal_eq rnd i
  refine ⟨by simp [createTestMesh], by simp [createTestMesh],
    by simp [createTestMesh], hpos, hnorm, ?_⟩
  rw [hnorm]
  exact hpos

/-- C8 witness: at vertex count 1 (with the degenerate all-zero draw
stream) the index buffer is exactly the single index 0. -/
theorem createTestMesh_structure_witness :
    (0 : ℕ) < 1 ∧
    (createTestMesh 1 (fun _ => 0)).indices = List.range 1 :=
  ⟨by decide, (createTestMesh_structure 1 (fun _ => 0) (by decide)).2.2.1⟩

/-- C9 counterexample: the initial state is reachable, no report line has
been emitted there, yet the text handed to the clipboard by the export
operation is the start-up placeholder, not the (empty) newline-join of the
emitted report lines. -/
theorem export_initial_placeholder :
    Reachable initialState ∧
    initialState.logs = [] ∧
    (copyResults initialState).copied = "Initializing..." ∧
    (copyResults initialState).copied ≠
      String.intercalate "\n" initialState.logs :=
  ⟨Reachable.init, rfl, rfl, by decide⟩

/-- C9 (amended): in every reachable state in which at least one report
line has been emitted, the exported text equals the newline-joined
concatenation of all emitted report lines (before the first report it is
the start-up placeholder); the export's success path leaves the state
unchanged once its confirmation timeout restores the text, its transient
state changes only the displayed text, and even the failure path leaves
the report log and controller fields untouched. -/
theorem export_report_spec (s : AppState) (h : Reachable s) :
    (s.logs ≠ [] →
        (copyResults s).copied = String.intercalate "\n" s.logs) ∧
    (s.logs = [] → (copyResults s).copied = "Initializing...") ∧
    (copyResults s).final = s ∧
    (copyResults s).duringTimeout.logs = s.logs ∧
    (copyResults s).duringTimeout.currentVertexCount =
      s.currentVertexCount ∧
    (copyResults s).duringTimeout.baselineFrameTime = s.baselineFrameTime ∧
    (copyResultsFailure s).logs = s.logs ∧
    (copyResultsFailure s).currentVertexCount = s.currentVertexCount ∧
    (copyResultsFailure s).baselineFrameTime = s.baselineFrameTime := by
  have inv := reachable_inv h
  exact ⟨fun hl => inv.2.2.2 hl, fun hl => inv.2.2.1 hl, rfl, rfl, rfl, rfl,
    rfl, rfl, rfl⟩

/-- C9 witness: in the concrete post-baseline state (one emitted line) the
exported text is the newline-join of the report lines and the export leaves
the state unchanged. -/
theorem export_report_spec_witness :
    afterBaselineState.logs ≠ [] ∧
    (copyResults afterBaselineState).copied =
      String.intercalate "\n" afterBaselineState.logs ∧
    (copyResults afterBaselineState).final = afterBaselineState := by
  have hw := export_report_spec afterBaselineState reachable_afterBaseline
  have hl : afterBaselineState.logs ≠ [] := by
    rw [afterBaseline_fields.2.2.2.2.2.2]
    simp
  exact ⟨hl, hw.1 hl, hw.2.2.1⟩
